import Mathlib

/-!
Shallow embedding of the unicode_border library (src/lib.rs) and proofs of its
specification claims.  Rust strings are modelled as lists of Unicode scalar
values (Lean Char coincides with Rust char); Rust str::len, which returns the
UTF-8 byte count, is modelled by rustLen; Rust str::trim by rustTrim.
-/

/-- Code points with the Unicode White_Space property, the set recognised by
Rust char::is_whitespace (the host standard whitespace definition). -/
def whitespaceCodepoints : List Nat :=
  [0x09, 0x0A, 0x0B, 0x0C, 0x0D, 0x20, 0x85, 0xA0, 0x1680,
   0x2000, 0x2001, 0x2002, 0x2003, 0x2004, 0x2005, 0x2006, 0x2007,
   0x2008, 0x2009, 0x200A, 0x2028, 0x2029, 0x202F, 0x205F, 0x3000]

/-- Rust char::is_whitespace. -/
def rustIsWhitespace (c : Char) : Bool :=
  whitespaceCodepoints.contains c.toNat

/-- Rust str::len: the UTF-8 byte length of a string. -/
def rustLen (s : List Char) : Nat :=
  (s.map Char.utf8Size).sum

/-- Rust str::trim: remove all leading and all trailing whitespace. -/
def rustTrim (s : List Char) : List Char :=
  List.rdropWhile rustIsWhitespace (List.dropWhile rustIsWhitespace s)

/-- The options struct of src/lib.rs.  The thickness tuples are in source
order (left, top, right, bottom). -/
structure TextBorderOptions where
  border_char : Char
  border_thickness : Nat × Nat × Nat × Nat
  margin_thickness : Nat × Nat × Nat × Nat
  prevent_trim : Bool
deriving DecidableEq

/-- impl Default for TextBorderOptions in src/lib.rs. -/
def TextBorderOptions.default : TextBorderOptions :=
  ⟨'*', (1, 1, 1, 1), (0, 0, 0, 0), false⟩

/-- TextBorderOptions::create_border_line of src/lib.rs: the border character
repeated message.len() + border left + border right + margin left + margin
right times (message.len() is the byte length). -/
def TextBorderOptions.create_border_line
    (self : TextBorderOptions) (message : List Char) : List Char :=
  List.replicate
    (rustLen message + self.border_thickness.1 + self.border_thickness.2.2.1
      + self.margin_thickness.1 + self.margin_thickness.2.2.1)
    self.border_char

/-- TextBorderOptions::create_margin_line of src/lib.rs. -/
def TextBorderOptions.create_margin_line
    (self : TextBorderOptions) (message : List Char) : List Char :=
  List.replicate self.border_thickness.1 self.border_char
    ++ List.replicate
        (rustLen message + self.margin_thickness.1 + self.margin_thickness.2.2.1) ' '
    ++ List.replicate self.border_thickness.2.2.1 self.border_char

/-- TextBorderOptions::create_message_line of src/lib.rs. -/
def TextBorderOptions.create_message_line
    (self : TextBorderOptions) (message : List Char) : List Char :=
  List.replicate self.border_thickness.1 self.border_char
    ++ List.replicate self.margin_thickness.1 ' '
    ++ message
    ++ List.replicate self.margin_thickness.2.2.1 ' '
    ++ List.replicate self.border_thickness.2.2.1 self.border_char

/-- The output_message binding of create_text_border: trim unless
prevent_trim is set. -/
def effective_message (opts : TextBorderOptions) (message : List Char) : List Char :=
  if opts.prevent_trim then message else rustTrim message

/-- The bordered_message vector assembled by create_text_border, in push
order: top border rows, top margin rows, the message row, bottom margin rows,
bottom border rows. -/
def border_rows (opts : TextBorderOptions) (output_message : List Char) :
    List (List Char) :=
  List.replicate opts.border_thickness.2.1 (opts.create_border_line output_message)
    ++ List.replicate opts.margin_thickness.2.1 (opts.create_margin_line output_message)
    ++ [opts.create_message_line output_message]
    ++ List.replicate opts.margin_thickness.2.2.2 (opts.create_margin_line output_message)
    ++ List.replicate opts.border_thickness.2.2.2 (opts.create_border_line output_message)

/-- pub fn create_text_border of src/lib.rs: resolve the optional options to
the default, trim the message unless prevented, assemble the rows and join
them with a single line break. -/
def create_text_border (message : List Char) (options : Option TextBorderOptions) :
    List Char :=
  let opts := options.getD TextBorderOptions.default
  List.intercalate ['\n'] (border_rows opts (effective_message opts message))

example : create_text_border ("Hi".data) none = ("****\n*Hi*\n****").data := by decide

example : create_text_border ("".data) none = ("**\n**\n**").data := by decide

/-! Helper lemmas about trimming. -/

theorem head?_dropWhile_not (p : Char → Bool) :
    ∀ (l : List Char) (c : Char), (List.dropWhile p l).head? = some c → p c = false := by
  intro l
  induction l with
  | nil => intro c h; simp [List.dropWhile] at h
  | cons a t ih =>
      intro c h
      rw [List.dropWhile_cons] at h
      by_cases hp : p a = true
      · rw [if_pos hp] at h; exact ih c h
      · rw [if_neg hp] at h
        simp at hp
        simp at h
        rw [← h]
        exact hp

theorem head?_rdropWhile (p : Char → Bool) (l : List Char) (c : Char)
    (h : (List.rdropWhile p l).head? = some c) : l.head? = some c := by
  obtain ⟨s, hs⟩ := List.dropWhile_suffix (l := l.reverse) p
  rw [List.rdropWhile] at h
  have hl : l = (List.dropWhile p l.reverse).reverse ++ s.reverse := by
    rw [← List.reverse_append, hs, List.reverse_reverse]
  rw [hl, List.head?_append, h]
  rfl

theorem head?_rustTrim_not (s : List Char) (c : Char)
    (h : (rustTrim s).head? = some c) : rustIsWhitespace c = false := by
  rw [rustTrim] at h
  exact head?_dropWhile_not _ _ _ (head?_rdropWhile _ _ _ h)

theorem getLast?_rustTrim_not (s : List Char) (c : Char)
    (h : (rustTrim s).getLast? = some c) : rustIsWhitespace c = false := by
  rw [rustTrim, List.rdropWhile, List.getLast?_reverse] at h
  exact head?_dropWhile_not _ _ _ h

/-! Helper lemmas about the three line constructors and the row list. -/

theorem length_create_border_line (opts : TextBorderOptions) (m : List Char) :
    (opts.create_border_line m).length
      = rustLen m + opts.border_thickness.1 + opts.border_thickness.2.2.1
        + opts.margin_thickness.1 + opts.margin_thickness.2.2.1 := by
  simp [TextBorderOptions.create_border_line]

theorem length_create_margin_line (opts : TextBorderOptions) (m : List Char) :
    (opts.create_margin_line m).length
      = rustLen m + opts.border_thickness.1 + opts.border_thickness.2.2.1
        + opts.margin_thickness.1 + opts.margin_thickness.2.2.1 := by
  simp [TextBorderOptions.create_margin_line]
  omega

theorem length_create_message_line (opts : TextBorderOptions) (m : List Char) :
    (opts.create_message_line m).length
      = m.length + opts.border_thickness.1 + opts.border_thickness.2.2.1
        + opts.margin_thickness.1 + opts.margin_thickness.2.2.1 := by
  simp [TextBorderOptions.create_message_line]
  omega

theorem border_rows_ne_nil (opts : TextBorderOptions) (m : List Char) :
    border_rows opts m ≠ [] := by
  simp [border_rows]

theorem eq_of_mem_border_rows {opts : TextBorderOptions} {m l : List Char}
    (h : l ∈ border_rows opts m) :
    l = opts.create_border_line m ∨ l = opts.create_margin_line m
      ∨ l = opts.create_message_line m := by
  simp [border_rows, List.mem_replicate] at h
  tauto

theorem newline_not_mem_border_rows {opts : TextBorderOptions} {m : List Char}
    (hbc : opts.border_char ≠ '\n') (hm : '\n' ∉ m) :
    ∀ l ∈ border_rows opts m, '\n' ∉ l := by
  intro l hl hc
  rcases eq_of_mem_border_rows hl with h | h | h <;> subst h
  · rw [TextBorderOptions.create_border_line, List.mem_replicate] at hc
    exact hbc hc.2.symm
  · rw [TextBorderOptions.create_margin_line] at hc
    simp [List.mem_replicate] at hc
    rcases hc with ⟨_, h⟩ | ⟨_, h⟩
    · exact hbc h.symm
    · exact hbc h.symm
  · rw [TextBorderOptions.create_message_line] at hc
    simp [List.mem_replicate] at hc
    rcases hc with ⟨_, h⟩ | h | ⟨_, h⟩
    · exact hbc h.symm
    · exact hm h
    · exact hbc h.symm

theorem splitOn_create_text_border (m : List Char) (o : Option TextBorderOptions)
    (hbc : (o.getD TextBorderOptions.default).border_char ≠ '\n')
    (hm : '\n' ∉ effective_message (o.getD TextBorderOptions.default) m) :
    (create_text_border m o).splitOn '\n'
      = border_rows (o.getD TextBorderOptions.default)
          (effective_message (o.getD TextBorderOptions.default) m) := by
  have h1 : create_text_border m o
      = List.intercalate ['\n']
          (border_rows (o.getD TextBorderOptions.default)
            (effective_message (o.getD TextBorderOptions.default) m)) := rfl
  rw [h1]
  exact List.splitOn_intercalate _ '\n'
    (newline_not_mem_border_rows hbc hm) (border_rows_ne_nil _ _)

/-! Helper lemmas for infix facts about joined output. -/

theorem mem_intersperse_of_mem {α : Type} {x sep : α} :
    ∀ {L : List α}, x ∈ L → x ∈ List.intersperse sep L := by
  intro L
  induction L with
  | nil => intro h; cases h
  | cons a t ih =>
      intro h
      cases t with
      | nil => simpa using h
      | cons b u =>
          rw [List.intersperse_cons_cons]
          rcases List.mem_cons.mp h with h1 | h1
          · exact h1 ▸ List.mem_cons_self a _
          · exact List.mem_cons_of_mem a (List.mem_cons_of_mem sep (ih h1))

theorem infix_intercalate_of_mem {α : Type} {x : List α} (sep : List α)
    {L : List (List α)} (h : x ∈ L) : x <:+: List.intercalate sep L := by
  have he : List.intercalate sep L = (List.intersperse sep L).flatten := rfl
  rw [he]
  exact List.infix_of_mem_flatten (mem_intersperse_of_mem h)

theorem message_line_mem_border_rows (opts : TextBorderOptions) (m : List Char) :
    opts.create_message_line m ∈ border_rows opts m := by
  simp [border_rows]

theorem message_infix_message_line (opts : TextBorderOptions) (m : List Char) :
    m <:+: opts.create_message_line m :=
  ⟨List.replicate opts.border_thickness.1 opts.border_char
      ++ List.replicate opts.margin_thickness.1 ' ',
   List.replicate opts.margin_thickness.2.2.1 ' '
      ++ List.replicate opts.border_thickness.2.2.1 opts.border_char,
   by simp [TextBorderOptions.create_message_line, List.append_assoc]⟩

/-! The claims. -/

/-- C1 counterexample: the rectangle invariant as stated fails on the code,
because create_border_line sizes lines by the UTF-8 byte length of the message
while a line of the output holds characters.  For the one-character,
two-byte message composed of the code point 0xE9 and the default options the
output lines have lengths 4, 3 and 4, while the claim predicts 3 for all. -/
theorem claim_C1_counterexample :
    ¬ (∀ line ∈ (create_text_border ("é".data) none).splitOn '\n',
        line.length
          = (effective_message TextBorderOptions.default ("é".data)).length
            + 1 + 1 + 0 + 0) := by
  decide

/-- C1 (amended): provided the border character is not the line-break
character, the effective message contains no line break, and the UTF-8 byte
length of the effective message equals its character count (for instance any
ASCII message), every line of create_text_border has the same length,
content_width + border left + border right + margin left + margin right,
where content_width is the character count of the effective message. -/
theorem claim_C1_rectangle_invariant (m : List Char) (o : Option TextBorderOptions)
    (hbc : (o.getD TextBorderOptions.default).border_char ≠ '\n')
    (hm : '\n' ∉ effective_message (o.getD TextBorderOptions.default) m)
    (hlen : rustLen (effective_message (o.getD TextBorderOptions.default) m)
      = (effective_message (o.getD TextBorderOptions.default) m).length) :
    ∀ line ∈ (create_text_border m o).splitOn '\n',
      line.length
        = (effective_message (o.getD TextBorderOptions.default) m).length
          + (o.getD TextBorderOptions.default).border_thickness.1
          + (o.getD TextBorderOptions.default).border_thickness.2.2.1
          + (o.getD TextBorderOptions.default).margin_thickness.1
          + (o.getD TextBorderOptions.default).margin_thickness.2.2.1 := by
  intro line hline
  rw [splitOn_create_text_border m o hbc hm] at hline
  rcases eq_of_mem_border_rows hline with h | h | h <;> subst h
  · rw [length_create_border_line, hlen]
  · rw [length_create_margin_line, hlen]
  · rw [length_create_message_line]

/-- C1 witness: the amended rectangle invariant at the concrete input "Hi"
with the default options. -/
theorem claim_C1_rectangle_invariant_witness :
    (TextBorderOptions.default.border_char ≠ '\n'
      ∧ '\n' ∉ effective_message TextBorderOptions.default ("Hi".data)
      ∧ rustLen (effective_message TextBorderOptions.default ("Hi".data))
          = (effective_message TextBorderOptions.default ("Hi".data)).length)
    ∧ ∀ line ∈ (create_text_border ("Hi".data) none).splitOn '\n',
        line.length
          = (effective_message TextBorderOptions.default ("Hi".data)).length
            + TextBorderOptions.default.border_thickness.1
            + TextBorderOptions.default.border_thickness.2.2.1
            + TextBorderOptions.default.margin_thickness.1
            + TextBorderOptions.default.margin_thickness.2.2.1 :=
  ⟨by decide,
   claim_C1_rectangle_invariant ("Hi".data) none (by decide) (by decide) (by decide)⟩

/-- C2 counterexample: content_width in the code is not the character count.
For the one-character, two-byte message composed of the code point 0xE9 the
border line of the default options has length 4, while character count plus
the thickness sum is 3. -/
theorem claim_C2_counterexample :
    ¬ ((TextBorderOptions.default.create_border_line ("é".data)).length
        = ("é".data).length + 1 + 1 + 0 + 0) := by
  decide

/-- C2 (amended): content_width used for sizing is the UTF-8 byte length of
the effective message, not its character count; the border line consists of
the border character only and has exactly content_width + border left +
border right + margin left + margin right characters. -/
theorem claim_C2_border_line_width (opts : TextBorderOptions) (m : List Char) :
    (opts.create_border_line (effective_message opts m)).length
      = rustLen (effective_message opts m)
        + opts.border_thickness.1 + opts.border_thickness.2.2.1
        + opts.margin_thickness.1 + opts.margin_thickness.2.2.1
    ∧ ∀ c ∈ opts.create_border_line (effective_message opts m),
        c = opts.border_char := by
  refine ⟨length_create_border_line _ _, fun c hc => ?_⟩
  rw [TextBorderOptions.create_border_line, List.mem_replicate] at hc
  exact hc.2

/-- C3 counterexample: a line break embedded in the message splits the message
row, so the output of the message composed of the characters a, line break, b
with the default options has 4 lines while the claim predicts 3. -/
theorem claim_C3_counterexample :
    ¬ (((create_text_border ("a\nb".data) none).splitOn '\n').length
        = 1 + 0 + 1 + 0 + 1) := by
  decide

/-- C3 (amended): provided the border character is not the line-break
character and the effective message contains no line break, the number of
lines of the output equals border top + margin top + 1 + margin bottom +
border bottom. -/
theorem claim_C3_line_count (m : List Char) (o : Option TextBorderOptions)
    (hbc : (o.getD TextBorderOptions.default).border_char ≠ '\n')
    (hm : '\n' ∉ effective_message (o.getD TextBorderOptions.default) m) :
    ((create_text_border m o).splitOn '\n').length
      = (o.getD TextBorderOptions.default).border_thickness.2.1
        + (o.getD TextBorderOptions.default).margin_thickness.2.1
        + 1
        + (o.getD TextBorderOptions.default).margin_thickness.2.2.2
        + (o.getD TextBorderOptions.default).border_thickness.2.2.2 := by
  rw [splitOn_create_text_border m o hbc hm]
  simp [border_rows]
  omega

/-- C3 witness: the amended line count at the concrete input "Hi" with the
default options. -/
theorem claim_C3_line_count_witness :
    (TextBorderOptions.default.border_char ≠ '\n'
      ∧ '\n' ∉ effective_message TextBorderOptions.default ("Hi".data))
    ∧ ((create_text_border ("Hi".data) none).splitOn '\n').length
        = TextBorderOptions.default.border_thickness.2.1
          + TextBorderOptions.default.margin_thickness.2.1
          + 1
          + TextBorderOptions.default.margin_thickness.2.2.2
          + TextBorderOptions.default.border_thickness.2.2.2 :=
  ⟨by decide, claim_C3_line_count ("Hi".data) none (by decide) (by decide)⟩

/-- C4: the output is exactly the border line repeated border top times, the
margin line repeated margin top times, one message line, the margin line
repeated margin bottom times and the border line repeated border bottom
times, joined by a single line-break character between consecutive rows with
none before the first row and none after the last. -/
theorem claim_C4_row_structure (m : List Char) (o : Option TextBorderOptions) :
    create_text_border m o
      = List.intercalate ['\n']
          (List.replicate (o.getD TextBorderOptions.default).border_thickness.2.1
              ((o.getD TextBorderOptions.default).create_border_line
                (effective_message (o.getD TextBorderOptions.default) m))
            ++ List.replicate (o.getD TextBorderOptions.default).margin_thickness.2.1
                ((o.getD TextBorderOptions.default).create_margin_line
                  (effective_message (o.getD TextBorderOptions.default) m))
            ++ [(o.getD TextBorderOptions.default).create_message_line
                  (effective_message (o.getD TextBorderOptions.default) m)]
            ++ List.replicate (o.getD TextBorderOptions.default).margin_thickness.2.2.2
                ((o.getD TextBorderOptions.default).create_margin_line
                  (effective_message (o.getD TextBorderOptions.default) m))
            ++ List.replicate (o.getD TextBorderOptions.default).border_thickness.2.2.2
                ((o.getD TextBorderOptions.default).create_border_line
                  (effective_message (o.getD TextBorderOptions.default) m))) :=
  rfl

/-- C5: with prevent_trim false the effective message is the trimmed input,
and the trimmed input neither starts nor ends with a whitespace character of
the host whitespace definition. -/
theorem claim_C5_trim (m : List Char) (opts : TextBorderOptions)
    (h : opts.prevent_trim = false) :
    effective_message opts m = rustTrim m
    ∧ (∀ c, (rustTrim m).head? = some c → rustIsWhitespace c = false)
    ∧ (∀ c, (rustTrim m).getLast? = some c → rustIsWhitespace c = false) := by
  refine ⟨by simp [effective_message, h], ?_, ?_⟩
  · exact fun c hc => head?_rustTrim_not m c hc
  · exact fun c hc => getLast?_rustTrim_not m c hc

/-- C5 witness: the trim behaviour at the concrete input " hi " with the
default options. -/
theorem claim_C5_trim_witness :
    TextBorderOptions.default.prevent_trim = false
    ∧ (effective_message TextBorderOptions.default (" hi ".data)
          = rustTrim (" hi ".data)
      ∧ (∀ c, (rustTrim (" hi ".data)).head? = some c → rustIsWhitespace c = false)
      ∧ (∀ c, (rustTrim (" hi ".data)).getLast? = some c → rustIsWhitespace c = false)) :=
  ⟨rfl, claim_C5_trim (" hi ".data) TextBorderOptions.default rfl⟩

/-- C6: with prevent_trim true the message is used verbatim, the message row
is the left border run, the left margin blanks, the original message, the
right margin blanks and the right border run, and the output is the join of
the rows built from the verbatim message. -/
theorem claim_C6_verbatim_message_row (m : List Char) (opts : TextBorderOptions)
    (h : opts.prevent_trim = true) :
    effective_message opts m = m
    ∧ opts.create_message_line m
      = List.replicate opts.border_thickness.1 opts.border_char
        ++ (List.replicate opts.margin_thickness.1 ' '
        ++ (m ++ (List.replicate opts.margin_thickness.2.2.1 ' '
        ++ List.replicate opts.border_thickness.2.2.1 opts.border_char)))
    ∧ create_text_border m (some opts) = List.intercalate ['\n'] (border_rows opts m) := by
  have hm : effective_message opts m = m := by simp [effective_message, h]
  refine ⟨hm, by simp [TextBorderOptions.create_message_line], ?_⟩
  have h1 : create_text_border m (some opts)
      = List.intercalate ['\n'] (border_rows opts (effective_message opts m)) := rfl
  rw [h1, hm]

/-- C6 witness: the verbatim message row at the concrete input whose
characters are a space, the letter a and a space, with prevent_trim set. -/
theorem claim_C6_verbatim_message_row_witness :
    (⟨'*', (1, 1, 1, 1), (0, 0, 0, 0), true⟩ : TextBorderOptions).prevent_trim = true
    ∧ (effective_message ⟨'*', (1, 1, 1, 1), (0, 0, 0, 0), true⟩ (" a ".data) = " a ".data
      ∧ TextBorderOptions.create_message_line
            ⟨'*', (1, 1, 1, 1), (0, 0, 0, 0), true⟩ (" a ".data)
          = List.replicate 1 '*'
            ++ (List.replicate 0 ' ' ++ ((" a ".data)
            ++ (List.replicate 0 ' ' ++ List.replicate 1 '*')))
      ∧ create_text_border (" a ".data) (some ⟨'*', (1, 1, 1, 1), (0, 0, 0, 0), true⟩)
          = List.intercalate ['\n']
              (border_rows ⟨'*', (1, 1, 1, 1), (0, 0, 0, 0), true⟩ (" a ".data))) :=
  ⟨rfl, claim_C6_verbatim_message_row (" a ".data) _ rfl⟩

/-- C7: calling create_text_border without options gives the same string as
calling it with the explicitly constructed default options: border character
asterisk, all border thicknesses one, all margin thicknesses zero and
prevent_trim false. -/
theorem claim_C7_default_options (m : List Char) :
    create_text_border m none
      = create_text_border m (some ⟨'*', (1, 1, 1, 1), (0, 0, 0, 0), false⟩) :=
  rfl

/-- C8: with every border and margin thickness zero and prevent_trim false,
the input whose characters are a space, the letter x and a space renders to
the single character x, for any border character. -/
theorem claim_C8_all_zero (bc : Char) :
    create_text_border (" x ".data)
        (some ⟨bc, (0, 0, 0, 0), (0, 0, 0, 0), false⟩)
      = "x".data :=
  rfl

/-- C9: create_text_border is deterministic: equal inputs give equal
outputs.  The embedding of the source as a total function of its two
arguments witnesses that it reads and writes no other state. -/
theorem claim_C9_deterministic (m₁ m₂ : List Char) (o₁ o₂ : Option TextBorderOptions)
    (hm : m₁ = m₂) (ho : o₁ = o₂) :
    create_text_border m₁ o₁ = create_text_border m₂ o₂ := by
  rw [hm, ho]

/-- C9 witness: determinism at the concrete input "Hi" without options. -/
theorem claim_C9_deterministic_witness :
    ("Hi".data = "Hi".data ∧ (none : Option TextBorderOptions) = none)
    ∧ create_text_border ("Hi".data) none = create_text_border ("Hi".data) none :=
  ⟨⟨rfl, rfl⟩, claim_C9_deterministic ("Hi".data) ("Hi".data) none none rfl rfl⟩

/-- C10: for every options value the effective message is embedded in the
message row without any escaping or transformation: it occurs verbatim as a
contiguous segment of the output, and every one of its characters, in
particular an embedded line break (which survives verbatim with prevent_trim
set, or in the interior of the message under trimming), occurs in the
output. -/
theorem claim_C10_no_escaping (m : List Char) (opts : TextBorderOptions) :
    effective_message opts m <:+: create_text_border m (some opts)
    ∧ ∀ c ∈ effective_message opts m, c ∈ create_text_border m (some opts) := by
  have h1 : create_text_border m (some opts)
      = List.intercalate ['\n'] (border_rows opts (effective_message opts m)) := rfl
  have h2 : effective_message opts m <:+: create_text_border m (some opts) := by
    rw [h1]
    exact (message_infix_message_line opts (effective_message opts m)).trans
      (infix_intercalate_of_mem _
        (message_line_mem_border_rows opts (effective_message opts m)))
  exact ⟨h2, fun c hc => h2.subset hc⟩
